import Mathlib

/-!
Verification of the Tencent Cloud COS storage driver
(`registry/storage/driver/cos/cos.go`, called "variant A" below, and the
second implementation of the same package shipped in the repository,
called "variant B" below).

The embedding models Go strings as `List Char`, byte buffers by their
length (the control flow of the driver depends only on `buf.Len()`; byte
contents are forwarded opaquely to the backend), and the COS SDK client
as a pure response oracle (`Backend`).  Every driver operation returns,
besides its result and the updated writer state, the list of backend
calls it issued, so that claims about which requests are (or are not)
made can be stated directly.
-/

set_option maxHeartbeats 1000000

namespace CosDriver

/-- Go strings, modelled as lists of characters. -/
abbrev GoStr := List Char

/-- Conversion from a Lean string literal. -/
def gs (s : String) : GoStr := s.toList

/-- Model of `strings.TrimLeft(s, "/")`: drop every leading `'/'`. -/
def trimLeftSlash (s : GoStr) : GoStr := s.dropWhile (· == '/')

/-- Model of `strings.TrimPrefix(s, "/")`: drop a single leading `'/'` if present. -/
def trimPrefixSlash (s : GoStr) : GoStr :=
  match s with
  | '/' :: t => t
  | s => s

/-- An error produced by the COS SDK client (`cos.ErrorResponse` or any
other Go error). -/
inductive BackendErr where
  | errorResponse (code message : GoStr)
  | other (message : GoStr)
  deriving Repr, DecidableEq

/-- A driver-level error value: `fmt.Errorf` messages,
`storagedriver.PathNotFoundError`, a raw SDK error passed through
untranslated, or the `storagedriver.Error` wrapper of variant B. -/
inductive Err where
  | errorf (msg : GoStr)
  | pathNotFound (path : GoStr)
  | backend (e : BackendErr)
  | wrapped (e : BackendErr)
  deriving Repr, DecidableEq

/-- Model of `parseError` of variant A (cos.go lines 680-699). -/
def parseErrorA (path : GoStr) (e : BackendErr) : Err :=
  match e with
  | .errorResponse code message =>
    if code = gs "NoSuchKey" then .pathNotFound path
    else if code = gs "AccessDenied" then .errorf (gs "access denied: " ++ message)
    else if code = gs "BucketNotFound" then .errorf (gs "bucket not found: " ++ message)
    else .errorf (gs "cos error: " ++ code ++ gs " - " ++ message)
  | .other m => .backend (.other m)

/-- Model of `parseError` of variant B (part_001 lines 582-594). -/
def parseErrorB (path : GoStr) (e : BackendErr) : Err :=
  match e with
  | .errorResponse code message =>
    if code = gs "NoSuchKey" ∨ code = gs "NoSuchBucket" then .pathNotFound path
    else .wrapped (.errorResponse code message)
  | .other m => .wrapped (.other m)

/-- One entry of the part list of a multipart upload (`cos.Object` as used by
the writers: `PartNumber` and `ETag`). -/
structure Part where
  partNumber : Nat
  etag : GoStr
  deriving Repr, DecidableEq

/-- One object entry of a bucket listing result. -/
structure ObjEntry where
  key : GoStr
  size : Nat
  lastModified : GoStr
  deriving Repr, DecidableEq

/-- The parameters of a `Bucket.Get` listing call
(`cos.BucketGetOptions`). -/
structure ListQuery where
  pfx : GoStr
  delimiter : GoStr
  maxKeys : Nat
  marker : GoStr
  deriving Repr, DecidableEq

/-- The result of a `Bucket.Get` listing call. -/
structure ListResult where
  contents : List ObjEntry
  commonPrefixes : List GoStr
  isTruncated : Bool
  nextMarker : GoStr
  deriving Repr, DecidableEq

/-- A backend call issued by the driver, recorded in the trace that every
modelled operation returns. -/
inductive BCall where
  | head (key : GoStr)
  | put (key : GoStr) (len : Nat)
  | initiate (key : GoStr)
  | uploadPart (key uploadID : GoStr) (partNumber len : Nat)
  | complete (key uploadID : GoStr) (parts : List Part)
  | abort (key uploadID : GoStr)
  | copy (destKey sourceURL : GoStr)
  | delete (key : GoStr)
  | deleteMulti (keys : List GoStr)
  | bucketGet (q : ListQuery)
  deriving Repr, DecidableEq

/-- The COS SDK client, modelled as a pure response oracle: each method
maps the request parameters to the response the backend would give.
`Object.Head` responses carry the already-parsed `Content-Length` and
`Last-Modified` values (header parsing belongs to the HTTP layer, which
is external to the driver).  `now` models `time.Now()`. -/
structure Backend where
  head : GoStr → Except BackendErr (Nat × GoStr)
  put : GoStr → Nat → Except BackendErr Unit
  initiateMultipartUpload : GoStr → Except BackendErr GoStr
  uploadPart : GoStr → GoStr → Nat → Nat → Except BackendErr GoStr
  completeMultipartUpload : GoStr → GoStr → List Part → Except BackendErr Unit
  abortMultipartUpload : GoStr → GoStr → Except BackendErr Unit
  copy : GoStr → GoStr → Except BackendErr Unit
  delete : GoStr → Except BackendErr Unit
  deleteMulti : List GoStr → Except BackendErr Unit
  bucketGet : ListQuery → Except BackendErr ListResult
  now : GoStr

/-- Model of `storagedriver.FileInfo` as returned by `Stat`. -/
structure FileInfo where
  path : GoStr
  size : Nat
  modTime : GoStr
  isDir : Bool
  deriving Repr, DecidableEq

/-- Model of `driver.cosPath` of variant A (cos.go lines 520-526). -/
def cosPathA (root p : GoStr) : GoStr :=
  if root = [] then trimPrefixSlash p
  else trimPrefixSlash (root ++ p)

/-- Model of `driver.cosPath` of variant B (part_001 lines 575-580). -/
def cosPathB (root p : GoStr) : GoStr :=
  if root = [] then trimLeftSlash p
  else trimLeftSlash (root ++ gs "/" ++ trimLeftSlash p)

/-! ## Variant A writer (cos.go lines 528-677) -/

/-- The `writer` struct of variant A.  The `bytes.Buffer` is modelled by
its length (`buf`); the writer never inspects buffered byte values, it
only forwards them to the backend. -/
structure WriterA where
  key : GoStr
  uploadID : GoStr
  parts : List Part
  size : Nat
  buf : Nat
  closed : Bool
  committed : Bool
  cancelled : Bool
  deriving Repr, DecidableEq

/-- Model of `driver.newWriter` of variant A (cos.go lines 542-554): fresh buffer,
all flags unset; `parts` is the list passed by the caller (`driver.Writer`
always passes nil). -/
def newWriterA (key uploadID : GoStr) (parts : List Part) : WriterA :=
  { key := key, uploadID := uploadID, parts := parts
    size := 0, buf := 0
    closed := false, committed := false, cancelled := false }

/-- Model of `writer.uploadPart` of variant A (cos.go lines 584-614): a no-op on an
empty buffer; otherwise the ENTIRE buffer content is copied out, the
buffer is reset, and the copy is uploaded as one part numbered
`len(parts)+1`; on success the returned ETag is appended to the part
list. -/
def uploadPartA (b : Backend) (w : WriterA) :
    Except BackendErr Unit × WriterA × List BCall :=
  if w.buf = 0 then (.ok (), w, [])
  else
    let partNumber := w.parts.length + 1
    let len := w.buf
    let w' := { w with buf := 0 }
    match b.uploadPart w.key w.uploadID partNumber len with
    | .error e => (.error e, w', [.uploadPart w.key w.uploadID partNumber len])
    | .ok etag =>
      (.ok (), { w' with parts := w'.parts ++ [⟨partNumber, etag⟩] },
        [.uploadPart w.key w.uploadID partNumber len])

/-- The `for w.buf.Len() >= w.driver.ChunkSize` loop of the variant A
`Write` (cos.go lines 575-579).  `fuel` only bounds the recursion for
Lean; with `chunkSize ≥ 1` each successful `uploadPart` empties the
buffer, so at most one iteration ever fires and any `fuel ≥ 2` is exact
(with `chunkSize = 0` the Go loop would not terminate). -/
def flushLoopA (b : Backend) (chunkSize : Nat) :
    Nat → WriterA → Except BackendErr Unit × WriterA × List BCall
  | 0, w => (.ok (), w, [])
  | fuel + 1, w =>
    if chunkSize ≤ w.buf then
      match uploadPartA b w with
      | (.error e, w', t) => (.error e, w', t)
      | (.ok _, w', t) =>
        match flushLoopA b chunkSize fuel w' with
        | (r, w'', t') => (r, w'', t ++ t')
    else (.ok (), w, [])

/-- Model of `writer.Write` of variant A (cos.go lines 556-582): rejects a closed,
cancelled or committed writer; otherwise appends to the buffer, counts
the bytes in `size`, and flushes while the buffer holds at least a
chunk of data.  Returns `(bytes accepted, error)` like the Go pair
`(int, error)`. -/
def writeA (b : Backend) (chunkSize : Nat) (w : WriterA) (n : Nat) :
    (Nat × Option Err) × WriterA × List BCall :=
  if w.closed then ((0, some (.errorf (gs "already closed"))), w, [])
  else if w.cancelled then ((0, some (.errorf (gs "already cancelled"))), w, [])
  else if w.committed then ((0, some (.errorf (gs "already committed"))), w, [])
  else
    let w1 := { w with buf := w.buf + n, size := w.size + n }
    match flushLoopA b chunkSize (w1.buf + 1) w1 with
    | (.error e, w', t) => ((n, some (.backend e)), w', t)
    | (.ok _, w', t) => ((n, none), w', t)

/-- Model of `writer.Close` of variant A (cos.go lines 620-634): idempotent; marks
the writer closed (and returns its buffer to the pool, a purely local
resource action). -/
def closeA (w : WriterA) : Option Err × WriterA :=
  if w.closed then (none, w)
  else (none, { w with closed := true })

/-- Model of `writer.Cancel` of variant A (cos.go lines 636-647): a no-op on a
closed writer; otherwise marks the writer cancelled, closes it, and
aborts the multipart upload, returning the abort error as-is. -/
def cancelA (b : Backend) (w : WriterA) : Option Err × WriterA × List BCall :=
  if w.closed then (none, w, [])
  else
    let w' := { w with cancelled := true, closed := true }
    match b.abortMultipartUpload w.key w.uploadID with
    | .error e => (some (.backend e), w', [.abort w.key w.uploadID])
    | .ok _ => (none, w', [.abort w.key w.uploadID])

/-- Model of `writer.Commit` of variant A (cos.go lines 649-677): after the state
checks it flushes the remaining buffer as a final (possibly short) part
and ALWAYS calls `CompleteMultipartUpload` with the accumulated part
list — even when that list is empty; there is no whole-object-put path.
Only after a successful completion are `committed` and `closed` set. -/
def commitA (b : Backend) (w : WriterA) : Option Err × WriterA × List BCall :=
  if w.closed ∧ ¬w.committed ∧ ¬w.cancelled then
    (some (.errorf (gs "already closed")), w, [])
  else if w.committed then (some (.errorf (gs "already committed")), w, [])
  else if w.cancelled then (some (.errorf (gs "already cancelled")), w, [])
  else
    match uploadPartA b w with
    | (.error e, w', t) => (some (.backend e), w', t)
    | (.ok _, w', t) =>
      match b.completeMultipartUpload w.key w.uploadID w'.parts with
      | .error e =>
        (some (.backend e), w', t ++ [.complete w.key w.uploadID w'.parts])
      | .ok _ =>
        (none, { w' with committed := true, closed := true },
          t ++ [.complete w.key w.uploadID w'.parts])

/-! ## Variant B writer (part_001 lines 596-707) -/

/-- The `writer` struct of variant B.  As in variant A the buffer is
modelled by its length.  Note that the `Write` of variant B never touches
`size`; `Size()` is `size + buf.Len()`. -/
structure WriterB where
  key : GoStr
  uploadID : GoStr
  parts : List Part
  size : Nat
  buf : Nat
  closed : Bool
  committed : Bool
  cancelled : Bool
  deriving Repr, DecidableEq

/-- Model of `driver.newWriter` of variant B (part_001 lines 609-617): empty
buffer, empty part list, all flags unset (`driver.Writer` always passes
uploadID `""`). -/
def newWriterB (key uploadID : GoStr) : WriterB :=
  { key := key, uploadID := uploadID, parts := []
    size := 0, buf := 0
    closed := false, committed := false, cancelled := false }

/-- Model of `writer.Write` of variant B (part_001 lines 619-625): only the
`closed` flag is checked; otherwise the bytes are buffered.  No part is
ever uploaded during `Write` and no backend call is made. -/
def writeB (w : WriterB) (n : Nat) :
    (Nat × Option Err) × WriterB × List BCall :=
  if w.closed then ((0, some (.errorf (gs "writer closed"))), w, [])
  else ((n, none), { w with buf := w.buf + n }, [])

/-- Model of `writer.Size` of variant B (part_001 lines 627-629). -/
def sizeB (w : WriterB) : Nat := w.size + w.buf

/-- Model of `writer.Close` of variant B (part_001 lines 631-637). -/
def closeB (w : WriterB) : Option Err × WriterB :=
  if w.closed then (none, w)
  else (none, { w with closed := true })

/-- Model of `writer.Cancel` of variant B (part_001 lines 639-650): a no-op when
already cancelled; otherwise sets `cancelled` and, when an upload session
exists, aborts it best-effort (the abort outcome is discarded).  Never
returns an error and never sets `closed`. -/
def cancelB (b : Backend) (w : WriterB) : Option Err × WriterB × List BCall :=
  if w.cancelled then (none, w, [])
  else
    let w' := { w with cancelled := true }
    if w.uploadID = [] then (none, w', [])
    else (none, w', [.abort w.key w.uploadID])

/-- Model of `writer.Commit` of variant B (part_001 lines 652-707).  A committed
writer returns success immediately; a cancelled one errors.  Otherwise
`committed` is set BEFORE any backend work.  An empty buffer leads to a
zero-length whole-object put; a buffer of at most a chunk (with no open
session) to a whole-object put of the buffer; anything else to
initiate-if-needed, upload of the whole buffer as one further part, and
completion with the parts renumbered 1,2,... in order.  A successful put
or upload drains the buffer (the SDK reads it to the end); on an error
the remaining buffer state is irrelevant to every property proved
below. -/
def commitB (b : Backend) (chunkSize : Nat) (w : WriterB) :
    Option Err × WriterB × List BCall :=
  if w.committed then (none, w, [])
  else if w.cancelled then (some (.errorf (gs "writer cancelled")), w, [])
  else
    let w1 := { w with committed := true }
    if w1.buf = 0 then
      match b.put w1.key 0 with
      | .error e => (some (.backend e), w1, [.put w1.key 0])
      | .ok _ => (none, w1, [.put w1.key 0])
    else if w1.uploadID = [] ∧ sizeB w1 ≤ chunkSize then
      match b.put w1.key w1.buf with
      | .error e => (some (.backend e), w1, [.put w1.key w1.buf])
      | .ok _ => (none, { w1 with buf := 0 }, [.put w1.key w1.buf])
    else
      let (initRes, w2, t2) :=
        if w1.uploadID = [] then
          match b.initiateMultipartUpload w1.key with
          | .error e => (some e, w1, [BCall.initiate w1.key])
          | .ok uid => (none, { w1 with uploadID := uid }, [BCall.initiate w1.key])
        else (none, w1, [])
      match initRes with
      | some e => (some (.backend e), w2, t2)
      | none =>
        -- if w.buf.Len() > 0 — always true on this branch
        let partNumber := w2.parts.length + 1
        match b.uploadPart w2.key w2.uploadID partNumber w2.buf with
        | .error e =>
          (some (.backend e), w2,
            t2 ++ [.uploadPart w2.key w2.uploadID partNumber w2.buf])
        | .ok etag =>
          -- the stored part records only the ETag (PartNumber left zero)
          let w3 := { w2 with parts := w2.parts ++ [⟨0, etag⟩], buf := 0 }
          let completeParts :=
            w3.parts.enum.map (fun ie => (⟨ie.1 + 1, ie.2.etag⟩ : Part))
          match b.completeMultipartUpload w3.key w3.uploadID completeParts with
          | .error e =>
            (some (.backend e), w3,
              t2 ++ [.uploadPart w2.key w2.uploadID partNumber w2.buf,
                     .complete w3.key w3.uploadID completeParts])
          | .ok _ =>
            (none, w3,
              t2 ++ [.uploadPart w2.key w2.uploadID partNumber w2.buf,
                     .complete w3.key w3.uploadID completeParts])

/-! ## Driver-level operations, variant A (cos.go) -/

/-- Model of `driver.Writer` of variant A (cos.go lines 267-297).  Non-append mode
initiates a multipart upload at once.  Append mode heads the key: any
head error is treated as object-not-present and a fresh multipart
upload is started; if the head SUCCEEDS — whatever the object's size —
the call fails with the unsupported-append error. -/
def driverWriterA (b : Backend) (root p : GoStr) (app : Bool) :
    Except Err WriterA × List BCall :=
  let key := cosPathA root p
  if ¬app then
    match b.initiateMultipartUpload key with
    | .error e => (.error (parseErrorA p e), [.initiate key])
    | .ok uid => (.ok (newWriterA key uid []), [.initiate key])
  else
    match b.head key with
    | .error _ =>
      match b.initiateMultipartUpload key with
      | .error e => (.error (parseErrorA p e), [.head key, .initiate key])
      | .ok uid => (.ok (newWriterA key uid []), [.head key, .initiate key])
    | .ok _ =>
      (.error (.errorf (gs "append mode not supported for existing objects")),
        [.head key])

/-- Model of `driver.Stat` of variant A (cos.go lines 301-352): head the key; on
success return a file entry with the size and modification time of the
object.  On a head error, issue one listing with prefix `key ++ "/"`,
delimiter `"/"` and max-keys 1: any content or common prefix makes a
synthetic directory (zero size and zero modification time), otherwise —
and also when the listing itself fails — the ORIGINAL head error is
translated and returned. -/
def statA (b : Backend) (root p : GoStr) :
    Except Err FileInfo × List BCall :=
  let key := cosPathA root p
  match b.head key with
  | .ok (size, modTime) =>
    (.ok { path := p, size := size, modTime := modTime, isDir := false },
      [.head key])
  | .error e =>
    let q : ListQuery :=
      { pfx := key ++ gs "/", delimiter := gs "/", maxKeys := 1, marker := [] }
    match b.bucketGet q with
    | .error _ => (.error (parseErrorA p e), [.head key, .bucketGet q])
    | .ok r =>
      if r.contents.length > 0 ∨ r.commonPrefixes.length > 0 then
        (.ok { path := p, size := 0, modTime := [], isDir := true },
          [.head key, .bucketGet q])
      else (.error (parseErrorA p e), [.head key, .bucketGet q])

/-- Model of `driver.Move` of variant A (cos.go lines 420-440): server-side copy;
a copy failure is translated and returned with no delete attempted.
Then the source is deleted; if that fails the destination is deleted
best-effort (outcome discarded) and the source-delete failure is
translated and returned.  `bucket`/`host` feed the source-URL string the
Go code builds with `Sprintf`. -/
def moveA (b : Backend) (bucket host root src dst : GoStr) :
    Option Err × List BCall :=
  let sourceKey := cosPathA root src
  let destKey := cosPathA root dst
  let sourceURL := bucket ++ gs ".cos." ++ host ++ gs ".myqcloud.com/" ++ sourceKey
  match b.copy destKey sourceURL with
  | .error e => (some (parseErrorA src e), [.copy destKey sourceURL])
  | .ok _ =>
    match b.delete sourceKey with
    | .ok _ => (none, [.copy destKey sourceURL, .delete sourceKey])
    | .error e =>
      (some (parseErrorA src e),
        [.copy destKey sourceURL, .delete sourceKey, .delete destKey])

/-- The pagination loop of the `Delete` of variant A (cos.go lines 458-487):
list with the bare key as prefix (no delimiter), batch-delete the
returned keys, and continue from `NextMarker` while truncated.  `fuel`
bounds the recursion; the Go loop runs until the backend stops reporting
truncation. -/
def deleteLoopA (b : Backend) (p key : GoStr) :
    Nat → GoStr → Option Err × List BCall
  | 0, _ => (none, [])
  | fuel + 1, marker =>
    let q : ListQuery :=
      { pfx := key, delimiter := [], maxKeys := 1000, marker := marker }
    match b.bucketGet q with
    | .error e => (some (parseErrorA p e), [.bucketGet q])
    | .ok r =>
      let batch :
          Option Err × List BCall :=
        if r.contents.length > 0 then
          let keys := r.contents.map (·.key)
          match b.deleteMulti keys with
          | .error e => (some (parseErrorA p e), [.deleteMulti keys])
          | .ok _ => (none, [.deleteMulti keys])
        else (none, [])
      match batch with
      | (some e, t) => (some e, [BCall.bucketGet q] ++ t)
      | (none, t) =>
        if r.isTruncated then
          match deleteLoopA b p key fuel r.nextMarker with
          | (res, t') => (res, [BCall.bucketGet q] ++ t ++ t')
        else (none, [BCall.bucketGet q] ++ t)

/-- Model of `driver.Delete` of variant A (cos.go lines 443-490): first try a
single-object delete; if it succeeds, done.  Otherwise fall back to the
paginated prefix listing/batch-delete loop. -/
def deleteA (b : Backend) (root p : GoStr) (fuel : Nat) :
    Option Err × List BCall :=
  let key := cosPathA root p
  match b.delete key with
  | .ok _ => (none, [.delete key])
  | .error _ =>
    match deleteLoopA b p key fuel [] with
    | (res, t) => (res, [BCall.delete key] ++ t)

/-! ## Driver-level operations, variant B (part_001) -/

/-- Model of `driver.Writer` of variant B (part_001 lines 317-336).  Append mode
heads the key: a head error means "start fresh"; a successful head with
parsed `Content-Length` greater than zero fails with the
unsupported-append error, while a zero size falls through to a fresh
writer.  Non-append mode makes no backend call at all. -/
def driverWriterB (b : Backend) (root p : GoStr) (app : Bool) :
    Except Err WriterB × List BCall :=
  let key := cosPathB root p
  if app then
    match b.head key with
    | .error _ => (.ok (newWriterB key []), [.head key])
    | .ok (size, _) =>
      if size > 0 then
        (.error
          (.errorf (gs "cos driver does not support appending to existing objects")),
          [.head key])
      else (.ok (newWriterB key []), [.head key])
  else (.ok (newWriterB key []), [])

/-- Model of `driver.Stat` of variant B (part_001 lines 338-383): head the key;
on success a file entry.  Otherwise one listing with prefix
`key ++ "/"` and max-keys 1 but NO delimiter; a non-empty `Contents`
yields a synthetic directory (modification time `time.Now()`), common
prefixes are never consulted, and an empty result yields
`PathNotFoundError` directly. -/
def statB (b : Backend) (root p : GoStr) :
    Except Err FileInfo × List BCall :=
  let key := cosPathB root p
  match b.head key with
  | .ok (size, modTime) =>
    (.ok { path := p, size := size, modTime := modTime, isDir := false },
      [.head key])
  | .error _ =>
    let q : ListQuery :=
      { pfx := key ++ gs "/", delimiter := [], maxKeys := 1, marker := [] }
    match b.bucketGet q with
    | .error e => (.error (parseErrorB p e), [.head key, .bucketGet q])
    | .ok r =>
      if r.contents.length > 0 then
        (.ok { path := p, size := 0, modTime := b.now, isDir := true },
          [.head key, .bucketGet q])
      else (.error (.pathNotFound p), [.head key, .bucketGet q])

/-- Model of `driver.Move` of variant B (part_001 lines 439-457): copy, then
delete the source.  A failure of either call is translated and returned;
in particular a source-delete failure is returned WITHOUT any rollback
delete of the destination. -/
def moveB (b : Backend) (bucket root src dst : GoStr) :
    Option Err × List BCall :=
  let sourceKey := cosPathB root src
  let destKey := cosPathB root dst
  let sourceURL := bucket ++ gs "/" ++ sourceKey
  match b.copy destKey sourceURL with
  | .error e => (some (parseErrorB src e), [.copy destKey sourceURL])
  | .ok _ =>
    match b.delete sourceKey with
    | .error e =>
      (some (parseErrorB src e), [.copy destKey sourceURL, .delete sourceKey])
    | .ok _ => (none, [.copy destKey sourceURL, .delete sourceKey])

/-- The pagination loop of the `Delete` of variant B (part_001 lines 468-497):
list with prefix `key ++ "/"`; an empty `Contents` ends the loop,
otherwise the keys of the page are batch-deleted and the loop continues from
`NextMarker` while truncated. -/
def deleteLoopB (b : Backend) (p key : GoStr) :
    Nat → GoStr → Option Err × List BCall
  | 0, _ => (none, [])
  | fuel + 1, marker =>
    let q : ListQuery :=
      { pfx := key ++ gs "/", delimiter := [], maxKeys := 1000
        marker := marker }
    match b.bucketGet q with
    | .error e => (some (parseErrorB p e), [.bucketGet q])
    | .ok r =>
      if r.contents.length = 0 then (none, [.bucketGet q])
      else
        let keys := r.contents.map (·.key)
        match b.deleteMulti keys with
        | .error e => (some (parseErrorB p e), [.bucketGet q, .deleteMulti keys])
        | .ok _ =>
          if r.isTruncated then
            match deleteLoopB b p key fuel r.nextMarker with
            | (res, t') =>
              (res, [BCall.bucketGet q, BCall.deleteMulti keys] ++ t')
          else (none, [.bucketGet q, .deleteMulti keys])

/-- Model of `driver.Delete` of variant B (part_001 lines 459-503): run the
prefix loop, then delete the bare key itself with the outcome discarded,
and return success. -/
def deleteB (b : Backend) (root p : GoStr) (fuel : Nat) :
    Option Err × List BCall :=
  let key := cosPathB root p
  match deleteLoopB b p key fuel [] with
  | (some e, t) => (some e, t)
  | (none, t) => (none, t ++ [.delete key])

/-! ## Concrete backends used by witnesses and counterexamples -/

/-- A backend on which every request succeeds: no object exists (head
fails with `NoSuchKey`), listings are empty, uploads return a fixed
upload id and ETag, and every mutation succeeds. -/
def okB : Backend where
  head := fun _ => .error (.errorResponse (gs "NoSuchKey") [])
  put := fun _ _ => .ok ()
  initiateMultipartUpload := fun _ => .ok (gs "uid")
  uploadPart := fun _ _ _ _ => .ok (gs "etag")
  completeMultipartUpload := fun _ _ _ => .ok ()
  abortMultipartUpload := fun _ _ => .ok ()
  copy := fun _ _ => .ok ()
  delete := fun _ => .ok ()
  deleteMulti := fun _ => .ok ()
  bucketGet := fun _ => .ok { contents := [], commonPrefixes := []
                              isTruncated := false, nextMarker := [] }
  now := []

/-- Like `okB` but a zero-size object exists at every key. -/
def zeroObjB : Backend :=
  { okB with head := fun _ => .ok (0, gs "t0") }

/-- Like `okB` but every whole-object put fails. -/
def putFailB : Backend :=
  { okB with put := fun _ _ => .error (.other (gs "put failed")) }

/-- Like `okB` but every single-object delete fails. -/
def deleteFailB : Backend :=
  { okB with delete := fun _ => .error (.other (gs "delete failed")) }

/-! ## The object-key mapping of the specification -/

/-- Modelled from the spec: the key-mapping invariant of section 3,
`ObjectKey = trim-leading-slash(RootDirectory + "/" +
trim-leading-slash(VirtualPath))` when RootDirectory is non-empty, else
`trim-leading-slash(VirtualPath)`, reading trim-leading-slash as
stripping every leading slash. -/
def specObjectKey (root p : GoStr) : GoStr :=
  if root = [] then trimLeftSlash p
  else trimLeftSlash (root ++ gs "/" ++ trimLeftSlash p)

/-! ## Helper lemmas -/

theorem trimLeftSlash_of_head_ne (s : GoStr) (h : s.head? ≠ some '/') :
    trimLeftSlash s = s := by
  cases s with
  | nil => rfl
  | cons c t =>
    have hc : (c == '/') = false := by
      have : c ≠ '/' := by intro hc; exact h (by simp [hc])
      simpa using this
    simp [trimLeftSlash, List.dropWhile, hc]

theorem trimLeftSlash_cons_slash (s : GoStr) :
    trimLeftSlash ('/' :: s) = trimLeftSlash s := by
  simp [trimLeftSlash, List.dropWhile]

theorem trimPrefixSlash_cons_ne (c : Char) (t : GoStr) (hc : c ≠ '/') :
    trimPrefixSlash (c :: t) = c :: t := by
  unfold trimPrefixSlash
  split
  · next heq =>
    injection heq with h1 _
    exact absurd h1 hc
  · rfl

/-- C5: for every virtual path (a slash-rooted, slash-separated string:
`'/' :: rest` with `rest` not starting in a further slash) and every
configured root directory not itself starting in a slash, the key
mapping of both implementations satisfies the specified invariant
`ObjectKey = trim-leading-slash(RootDirectory ++ "/" ++
trim-leading-slash(VirtualPath))` for a non-empty root, else
`trim-leading-slash(VirtualPath)`. -/
theorem C5_object_key_invariant (root rest : GoStr)
    (hrest : rest.head? ≠ some '/') (hroot : root.head? ≠ some '/') :
    cosPathA root ('/' :: rest) = specObjectKey root ('/' :: rest) ∧
    cosPathB root ('/' :: rest) = specObjectKey root ('/' :: rest) := by
  refine ⟨?_, rfl⟩
  cases root with
  | nil =>
    show trimPrefixSlash ('/' :: rest) = specObjectKey [] ('/' :: rest)
    simp [cosPathA, specObjectKey, trimPrefixSlash, trimLeftSlash_cons_slash,
      trimLeftSlash_of_head_ne rest hrest]
  | cons c rt =>
    have hc : c ≠ '/' := by
      intro hch; exact hroot (by simp [hch])
    have h1 : cosPathA (c :: rt) ('/' :: rest) = c :: (rt ++ '/' :: rest) := by
      simp only [cosPathA, if_neg (by simp : ¬(c :: rt = []))]
      simpa using trimPrefixSlash_cons_ne c (rt ++ '/' :: rest) hc
    have h2 : specObjectKey (c :: rt) ('/' :: rest) = c :: (rt ++ '/' :: rest) := by
      simp only [specObjectKey, if_neg (by simp : ¬(c :: rt = []))]
      rw [trimLeftSlash_cons_slash, trimLeftSlash_of_head_ne rest hrest]
      have : (c :: rt) ++ gs "/" ++ rest = c :: (rt ++ '/' :: rest) := by
        simp [gs]
      rw [this, trimLeftSlash_of_head_ne _ (by simpa using hc)]
    rw [h1, h2]

/-- Witness for C5 at a concrete root and path. -/
theorem C5_object_key_invariant_witness :
    cosPathA (gs "docker") ('/' :: gs "a/b") =
      specObjectKey (gs "docker") ('/' :: gs "a/b") ∧
    cosPathB (gs "docker") ('/' :: gs "a/b") =
      specObjectKey (gs "docker") ('/' :: gs "a/b") :=
  C5_object_key_invariant (gs "docker") (gs "a/b") (by decide) (by decide)

/-- C7: a delete of a path with zero matching objects (the backend
reports no object at the key and an empty, non-truncated listing under
the prefix) succeeds as a no-op in both implementations; since the
modelled operations are pure functions of the backend, the same call
issued twice in a row succeeds both times. -/
theorem C7_idempotent_delete (b : Backend) (root p : GoStr) (fuel : Nat)
    (rA rB : ListResult)
    (hcA : rA.contents = []) (htA : rA.isTruncated = false)
    (hcB : rB.contents = []) (_htB : rB.isTruncated = false)
    (hA : b.bucketGet { pfx := cosPathA root p, delimiter := []
                        maxKeys := 1000, marker := [] } = .ok rA)
    (hB : b.bucketGet { pfx := cosPathB root p ++ gs "/", delimiter := []
                        maxKeys := 1000, marker := [] } = .ok rB)
    (hfuel : 1 ≤ fuel) :
    ((deleteA b root p fuel).1 = none ∧ (deleteA b root p fuel).1 = none) ∧
    ((deleteB b root p fuel).1 = none ∧ (deleteB b root p fuel).1 = none) := by
  obtain ⟨f, rfl⟩ : ∃ f, fuel = f + 1 := ⟨fuel - 1, by omega⟩
  have hAoal : (deleteA b root p (f + 1)).1 = none := by
    unfold deleteA
    cases hd : b.delete (cosPathA root p) with
    | ok u => simp [hd]
    | error e =>
      unfold deleteLoopA
      simp [hd, hA, hcA, htA]
  have hBoal : (deleteB b root p (f + 1)).1 = none := by
    unfold deleteB deleteLoopB
    simp [hB, hcB]
  exact ⟨⟨hAoal, hAoal⟩, ⟨hBoal, hBoal⟩⟩

/-- Witness for C7: concrete empty backend, both implementations, twice. -/
theorem C7_idempotent_delete_witness :
    ((deleteA okB [] (gs "/x") 1).1 = none ∧ (deleteA okB [] (gs "/x") 1).1 = none) ∧
    ((deleteB okB [] (gs "/x") 1).1 = none ∧ (deleteB okB [] (gs "/x") 1).1 = none) :=
  C7_idempotent_delete okB [] (gs "/x") 1
    { contents := [], commonPrefixes := [], isTruncated := false, nextMarker := [] }
    { contents := [], commonPrefixes := [], isTruncated := false, nextMarker := [] }
    rfl rfl rfl rfl rfl rfl (by decide)

/-! ## C1: the chunking law -/

/-- Iterated one-byte `Write` calls on a variant A writer (the write
pattern under which the buffer crosses the chunk threshold exactly at
multiples of the chunk size). -/
def writeOnesA (b : Backend) (chunkSize : Nat) : Nat → WriterA → WriterA
  | 0, w => w
  | k + 1, w => writeOnesA b chunkSize k (writeA b chunkSize w 1).2.1

theorem writeA_unit_step (cs : Nat) (hcs : 1 ≤ cs) (w : WriterA)
    (hcl : w.closed = false) (hca : w.cancelled = false)
    (hco : w.committed = false) (hbuf : w.buf < cs) :
    (writeA okB cs w 1).2.1 =
      if w.buf + 1 = cs then
        { w with buf := 0, size := w.size + 1
                 parts := w.parts ++ [⟨w.parts.length + 1, gs "etag"⟩] }
      else { w with buf := w.buf + 1, size := w.size + 1 } := by
  by_cases h1 : w.buf + 1 = cs
  · rw [if_pos h1]
    simp only [writeA, hcl, hca, hco, Bool.false_eq_true, if_false, flushLoopA,
      uploadPartA, okB]
    have hc1 : cs ≤ w.buf + 1 := by omega
    have hne : ¬(w.buf + 1 = 0) := by omega
    have hnc : ¬(cs ≤ 0) := by omega
    simp [hc1, hne, hnc]
  · rw [if_neg h1]
    have hc1 : ¬(cs ≤ w.buf + 1) := by omega
    simp [writeA, hcl, hca, hco, flushLoopA, hc1]

theorem writeOnesA_invariant (cs : Nat) (hcs : 1 ≤ cs) :
    ∀ (k : Nat) (w : WriterA), w.closed = false → w.cancelled = false →
      w.committed = false → w.buf < cs →
      (writeOnesA okB cs k w).parts.length * cs + (writeOnesA okB cs k w).buf
          = w.parts.length * cs + w.buf + k
      ∧ (writeOnesA okB cs k w).buf < cs
      ∧ (writeOnesA okB cs k w).closed = false
      ∧ (writeOnesA okB cs k w).cancelled = false
      ∧ (writeOnesA okB cs k w).committed = false := by
  intro k
  induction k with
  | zero =>
    intro w h1 h2 h3 h4
    exact ⟨by simp [writeOnesA], h4, h1, h2, h3⟩
  | succ k ih =>
    intro w h1 h2 h3 h4
    simp only [writeOnesA]
    rw [writeA_unit_step cs hcs w h1 h2 h3 h4]
    by_cases hfl : w.buf + 1 = cs
    · rw [if_pos hfl]
      obtain ⟨e1, e2, e3, e4, e5⟩ :=
        ih { w with buf := 0, size := w.size + 1
                    parts := w.parts ++ [⟨w.parts.length + 1, gs "etag"⟩] }
          (by simpa using h1) (by simpa using h2) (by simpa using h3)
          (by simpa using hcs)
      refine ⟨?_, e2, e3, e4, e5⟩
      rw [e1]
      simp only [List.length_append, List.length_cons, List.length_nil]
      rw [← hfl]
      ring
    · rw [if_neg hfl]
      obtain ⟨e1, e2, e3, e4, e5⟩ :=
        ih { w with buf := w.buf + 1, size := w.size + 1 }
          (by simpa using h1) (by simpa using h2) (by simpa using h3)
          (by simp only; omega)
      refine ⟨?_, e2, e3, e4, e5⟩
      rw [e1]
      ring

theorem ceil_parts_eval (cs q r : Nat) (hcs : 1 ≤ cs) (hr : r < cs) :
    q + (if r = 0 then 0 else 1) = (q * cs + r + cs - 1) / cs := by
  by_cases h0 : r = 0
  · subst h0
    rw [if_pos rfl]
    have h1 : q * cs + 0 + cs - 1 = cs - 1 + cs * q := by
      rw [Nat.mul_comm cs q]
      generalize q * cs = a
      omega
    rw [h1, Nat.add_mul_div_left _ _ (show 0 < cs by omega),
      Nat.div_eq_of_lt (show cs - 1 < cs by omega)]
    omega
  · rw [if_neg h0]
    have h1 : q * cs + r + cs - 1 = r - 1 + cs * (q + 1) := by
      have h2 : cs * (q + 1) = q * cs + cs := by ring
      rw [h2]
      generalize q * cs = a
      omega
    rw [h1, Nat.add_mul_div_left _ _ (show 0 < cs by omega),
      Nat.div_eq_of_lt (show r - 1 < cs by omega)]
    omega

theorem commitA_okB_spec (w : WriterA) (hcl : w.closed = false)
    (hca : w.cancelled = false) (hco : w.committed = false) :
    (commitA okB w).1 = none ∧
    (commitA okB w).2.1.parts.length =
      w.parts.length + (if w.buf = 0 then 0 else 1) := by
  by_cases h0 : w.buf = 0
  · simp [commitA, uploadPartA, okB, hcl, hca, hco, h0]
  · simp [commitA, uploadPartA, okB, hcl, hca, hco, h0]

/-- C1 (amended): on the incremental-upload path of cos.go a flush
uploads the WHOLE buffer as one part (so at most one part per `Write`
call, a part possibly larger than the chunk size); the stated chunking
law `ceil(N / C)` holds for the write pattern in which the buffered
length reaches exactly C at each flush, e.g. one-byte writes: writing N
bytes in N one-byte `Write` calls with chunk size `C ≥ 1` against an
always-successful backend and committing produces exactly
`ceil(N / C) = (N + C - 1) / C` parts. -/
theorem C1_chunking_law_unit_writes (cs N : Nat) (hcs : 1 ≤ cs)
    (key uid : GoStr) :
    (commitA okB (writeOnesA okB cs N (newWriterA key uid []))).1 = none ∧
    (commitA okB (writeOnesA okB cs N (newWriterA key uid []))).2.1.parts.length
      = (N + cs - 1) / cs := by
  obtain ⟨e1, e2, e3, e4, e5⟩ :=
    writeOnesA_invariant cs hcs N (newWriterA key uid []) rfl rfl rfl
      (by simpa [newWriterA] using hcs)
  obtain ⟨c1, c2⟩ :=
    commitA_okB_spec (writeOnesA okB cs N (newWriterA key uid [])) e3 e4 e5
  refine ⟨c1, ?_⟩
  rw [c2]
  have hN : (writeOnesA okB cs N (newWriterA key uid [])).parts.length * cs
      + (writeOnesA okB cs N (newWriterA key uid [])).buf = N := by
    simpa [newWriterA] using e1
  conv_rhs => rw [← hN]
  exact ceil_parts_eval cs _ _ hcs e2

/-- Witness for the amended C1 at concrete inputs. -/
theorem C1_chunking_law_unit_writes_witness :
    (commitA okB (writeOnesA okB 5242880 3 (newWriterA (gs "k") (gs "uid") []))).1
      = none ∧
    (commitA okB
        (writeOnesA okB 5242880 3 (newWriterA (gs "k") (gs "uid") []))).2.1.parts.length
      = (3 + 5242880 - 1) / 5242880 :=
  C1_chunking_law_unit_writes 5242880 3 (by norm_num) (gs "k") (gs "uid")

theorem writeA_fresh_big (cs n : Nat) (hcs : 1 ≤ cs) (hn : cs ≤ n)
    (key uid : GoStr) :
    writeA okB cs (newWriterA key uid []) n =
      ((n, none),
       { key := key, uploadID := uid, parts := [⟨1, gs "etag"⟩]
         size := n, buf := 0
         closed := false, committed := false, cancelled := false },
       [.uploadPart key uid 1 n]) := by
  obtain ⟨m, rfl⟩ : ∃ m, n = m + 1 := ⟨n - 1, by omega⟩
  simp only [writeA, newWriterA, Nat.zero_add]
  rw [flushLoopA]
  rw [if_pos (show cs ≤ m + 1 from hn)]
  simp only [uploadPartA]
  rw [if_neg (show ¬(m + 1 = 0) by omega)]
  simp only [okB]
  rw [flushLoopA]
  rw [if_neg (show ¬(cs ≤ 0) by omega)]
  simp

/-- Counterexample to C1 as stated: with the minimum configurable chunk
size C = 5242880, a single `Write` of N = 2C = 10485760 bytes on a fresh
incremental-upload writer followed by `Commit` succeeds but produces
exactly ONE part (of 2C bytes), while the claim demands
`ceil(N / C) = 2` parts: the flush uploads the entire buffer as a single
oversized part instead of parts of exactly C bytes. -/
theorem C1_chunking_law_counterexample :
    (writeA okB 5242880 (newWriterA (gs "k") (gs "uid") []) 10485760).1
      = (10485760, none) ∧
    (commitA okB
        (writeA okB 5242880 (newWriterA (gs "k") (gs "uid") []) 10485760).2.1).1
      = none ∧
    (commitA okB
        (writeA okB 5242880
          (newWriterA (gs "k") (gs "uid") []) 10485760).2.1).2.1.parts.length
      = 1 ∧
    (10485760 + 5242880 - 1) / 5242880 = 2 := by
  have hw := writeA_fresh_big 5242880 10485760 (by norm_num) (by norm_num)
    (gs "k") (gs "uid")
  rw [hw]
  refine ⟨rfl, ?_, ?_, by norm_num⟩
  · exact (commitA_okB_spec _ rfl rfl rfl).1
  · rw [(commitA_okB_spec _ rfl rfl rfl).2]
    rfl

/-! ## C2: append mode -/

/-- C2 (amended): append mode behaves as a fresh write when no object
exists at the path (both variants); when an object exists, cos.go
rejects append UNCONDITIONALLY — even for a zero-size object — while
the variant implementation rejects exactly the objects of non-zero
size and treats a zero-size object as a fresh write.  `p0` carries a
zero-size object, `p1` a non-zero one, and `p2` none. -/
theorem C2_append_mode (b : Backend) (root p0 p1 p2 : GoStr) (sz : Nat)
    (mt0 mt1 uid : GoStr) (e : BackendErr) (hsz : 0 < sz)
    (h0A : b.head (cosPathA root p0) = .ok (0, mt0))
    (h1A : b.head (cosPathA root p1) = .ok (sz, mt1))
    (h2A : b.head (cosPathA root p2) = .error e)
    (h0B : b.head (cosPathB root p0) = .ok (0, mt0))
    (h1B : b.head (cosPathB root p1) = .ok (sz, mt1))
    (h2B : b.head (cosPathB root p2) = .error e)
    (hinit : b.initiateMultipartUpload (cosPathA root p2) = .ok uid) :
    (driverWriterA b root p0 true).1 =
      .error (.errorf (gs "append mode not supported for existing objects")) ∧
    (driverWriterA b root p1 true).1 =
      .error (.errorf (gs "append mode not supported for existing objects")) ∧
    (driverWriterA b root p2 true).1 =
      .ok (newWriterA (cosPathA root p2) uid []) ∧
    (driverWriterB b root p0 true).1 = .ok (newWriterB (cosPathB root p0) []) ∧
    (driverWriterB b root p1 true).1 =
      .error
        (.errorf (gs "cos driver does not support appending to existing objects")) ∧
    (driverWriterB b root p2 true).1 = .ok (newWriterB (cosPathB root p2) []) := by
  refine ⟨?_, ?_, ?_, ?_, ?_, ?_⟩
  · simp [driverWriterA, h0A]
  · simp [driverWriterA, h1A]
  · simp [driverWriterA, h2A, hinit]
  · simp [driverWriterB, h0B]
  · simp [driverWriterB, h1B, hsz]
  · simp [driverWriterB, h2B]

/-- Keyed backend for the C2 witness: a zero-size object at key `z`, a
7-byte object at key `p`, nothing elsewhere. -/
def c2B : Backend :=
  { okB with head := fun k =>
      if k = gs "z" then .ok (0, gs "t0")
      else if k = gs "p" then .ok (7, gs "t1")
      else .error (.errorResponse (gs "NoSuchKey") []) }

/-- Witness for the amended C2 at concrete paths. -/
theorem C2_append_mode_witness :
    (driverWriterA c2B [] (gs "/z") true).1 =
      .error (.errorf (gs "append mode not supported for existing objects")) ∧
    (driverWriterA c2B [] (gs "/p") true).1 =
      .error (.errorf (gs "append mode not supported for existing objects")) ∧
    (driverWriterA c2B [] (gs "/n") true).1 =
      .ok (newWriterA (cosPathA [] (gs "/n")) (gs "uid") []) ∧
    (driverWriterB c2B [] (gs "/z") true).1 =
      .ok (newWriterB (cosPathB [] (gs "/z")) []) ∧
    (driverWriterB c2B [] (gs "/p") true).1 =
      .error
        (.errorf (gs "cos driver does not support appending to existing objects")) ∧
    (driverWriterB c2B [] (gs "/n") true).1 =
      .ok (newWriterB (cosPathB [] (gs "/n")) []) :=
  C2_append_mode c2B [] (gs "/z") (gs "/p") (gs "/n") 7 (gs "t0") (gs "t1")
    (gs "uid") (.errorResponse (gs "NoSuchKey") []) (by norm_num)
    rfl rfl rfl rfl rfl rfl rfl

/-- Counterexample to C2 as stated: the backend reports an EXISTING
object of size zero at the key, yet the cos.go append-mode writer
request fails with the unsupported-append error instead of succeeding
as a fresh write. -/
theorem C2_append_mode_counterexample :
    (driverWriterA zeroObjB [] (gs "/a") true).1 =
      .error (.errorf (gs "append mode not supported for existing objects")) := rfl

/-! ## C3: Commit finalization paths -/

/-- C3 (amended): in cos.go, `Commit` NEVER uses a whole-object put:
with an empty buffer it finalizes the multipart upload with the
accumulated part list as-is (an empty list for a fresh writer), and
with a non-empty buffer it uploads the remaining bytes as one final
possibly-short part numbered `len(parts)+1` and then finalizes with the
accumulated ascending parts.  In the variant implementation a Commit
with an empty buffer stores the object by a single zero-length
whole-object put. -/
theorem C3_commit_paths (b : Backend) (cs : Nat) (w0 w1 : WriterA)
    (wb : WriterB) (etag : GoStr)
    (h0cl : w0.closed = false) (h0ca : w0.cancelled = false)
    (h0co : w0.committed = false) (h0buf : w0.buf = 0)
    (h0c : b.completeMultipartUpload w0.key w0.uploadID w0.parts = .ok ())
    (h1cl : w1.closed = false) (h1ca : w1.cancelled = false)
    (h1co : w1.committed = false) (h1buf : 0 < w1.buf)
    (h1u : b.uploadPart w1.key w1.uploadID (w1.parts.length + 1) w1.buf = .ok etag)
    (h1c : b.completeMultipartUpload w1.key w1.uploadID
        (w1.parts ++ [⟨w1.parts.length + 1, etag⟩]) = .ok ())
    (hbco : wb.committed = false) (hbca : wb.cancelled = false)
    (hbbuf : wb.buf = 0) (hbput : b.put wb.key 0 = .ok ()) :
    commitA b w0 = (none, { w0 with committed := true, closed := true },
      [.complete w0.key w0.uploadID w0.parts]) ∧
    commitA b w1 = (none,
      { w1 with
          buf := 0, parts := w1.parts ++ [⟨w1.parts.length + 1, etag⟩],
          committed := true, closed := true },
      [.uploadPart w1.key w1.uploadID (w1.parts.length + 1) w1.buf,
       .complete w1.key w1.uploadID (w1.parts ++ [⟨w1.parts.length + 1, etag⟩])]) ∧
    commitB b cs wb = (none, { wb with committed := true }, [.put wb.key 0]) := by
  refine ⟨?_, ?_, ?_⟩
  · simp [commitA, uploadPartA, h0cl, h0ca, h0co, h0buf, h0c]
  · have hne : ¬(w1.buf = 0) := by omega
    simp [commitA, uploadPartA, h1cl, h1ca, h1co, hne, h1u, h1c]
  · simp [commitB, hbco, hbca, hbbuf, hbput]

/-- Witness for the amended C3 at concrete writers over `okB`. -/
theorem C3_commit_paths_witness :
    commitA okB (newWriterA (gs "k0") (gs "u0") []) =
      (none,
       { newWriterA (gs "k0") (gs "u0") [] with committed := true, closed := true },
       [.complete (gs "k0") (gs "u0") []]) ∧
    commitA okB
        { key := gs "k1", uploadID := gs "u1", parts := [], size := 3, buf := 3,
          closed := false, committed := false, cancelled := false } =
      (none,
       { key := gs "k1", uploadID := gs "u1", parts := [⟨1, gs "etag"⟩], size := 3,
         buf := 0, closed := true, committed := true, cancelled := false },
       [.uploadPart (gs "k1") (gs "u1") 1 3,
        .complete (gs "k1") (gs "u1") [⟨1, gs "etag"⟩]]) ∧
    commitB okB 5242880 (newWriterB (gs "k2") []) =
      (none, { newWriterB (gs "k2") [] with committed := true },
       [.put (gs "k2") 0]) := by
  have h := C3_commit_paths okB 5242880 (newWriterA (gs "k0") (gs "u0") [])
    { key := gs "k1", uploadID := gs "u1", parts := [], size := 3, buf := 3,
      closed := false, committed := false, cancelled := false }
    (newWriterB (gs "k2") []) (gs "etag")
    rfl rfl rfl rfl rfl rfl rfl rfl (by norm_num) rfl rfl rfl rfl rfl rfl
  exact h

/-- Counterexample to C3 as stated: Commit on a fresh cos.go writer with
zero buffered bytes and no parts does NOT store the object via a single
whole-object put — it finalizes the incremental upload, issuing exactly
one CompleteMultipartUpload call with an EMPTY part list and no put. -/
theorem C3_commit_single_shot_counterexample :
    commitA okB (newWriterA (gs "k") (gs "uid") []) =
      (none,
       { newWriterA (gs "k") (gs "uid") [] with committed := true, closed := true },
       [.complete (gs "k") (gs "uid") []]) := rfl

/-! ## C4: Move error handling -/

/-- C4 (amended): in both variants a copy failure makes `Move` return
the translated copy error with no deletion attempted.  When the copy
succeeds and the source deletion fails, cos.go issues a best-effort
delete of the destination and returns the translated deletion failure,
while the variant implementation returns the translated deletion
failure WITHOUT attempting any rollback delete of the destination.
Paths `s1 → d1` have a failing copy; paths `s2 → d2` a succeeding copy
and a failing source delete. -/
theorem C4_move_rollback (b : Backend) (bucket host root s1 d1 s2 d2 : GoStr)
    (e1 e2 : BackendErr)
    (hA1 : b.copy (cosPathA root d1)
      (bucket ++ gs ".cos." ++ host ++ gs ".myqcloud.com/" ++ cosPathA root s1)
      = .error e1)
    (hA2c : b.copy (cosPathA root d2)
      (bucket ++ gs ".cos." ++ host ++ gs ".myqcloud.com/" ++ cosPathA root s2)
      = .ok ())
    (hA2d : b.delete (cosPathA root s2) = .error e2)
    (hB1 : b.copy (cosPathB root d1) (bucket ++ gs "/" ++ cosPathB root s1)
      = .error e1)
    (hB2c : b.copy (cosPathB root d2) (bucket ++ gs "/" ++ cosPathB root s2)
      = .ok ())
    (hB2d : b.delete (cosPathB root s2) = .error e2) :
    moveA b bucket host root s1 d1 = (some (parseErrorA s1 e1),
      [.copy (cosPathA root d1)
        (bucket ++ gs ".cos." ++ host ++ gs ".myqcloud.com/" ++ cosPathA root s1)]) ∧
    moveA b bucket host root s2 d2 = (some (parseErrorA s2 e2),
      [.copy (cosPathA root d2)
        (bucket ++ gs ".cos." ++ host ++ gs ".myqcloud.com/" ++ cosPathA root s2),
       .delete (cosPathA root s2), .delete (cosPathA root d2)]) ∧
    moveB b bucket root s1 d1 = (some (parseErrorB s1 e1),
      [.copy (cosPathB root d1) (bucket ++ gs "/" ++ cosPathB root s1)]) ∧
    moveB b bucket root s2 d2 = (some (parseErrorB s2 e2),
      [.copy (cosPathB root d2) (bucket ++ gs "/" ++ cosPathB root s2),
       .delete (cosPathB root s2)]) := by
  refine ⟨?_, ?_, ?_, ?_⟩
  · simp only [moveA]
    rw [hA1]
  · simp only [moveA]
    rw [hA2c, hA2d]
  · simp only [moveB]
    rw [hB1]
  · simp only [moveB]
    rw [hB2c, hB2d]

/-- Keyed backend for the C4 witness: copies into key `d1` fail, the
delete of key `s2` fails, everything else succeeds. -/
def c4B : Backend :=
  { okB with
    copy := fun dk _ =>
      if dk = gs "d1" then .error (.other (gs "copy failed")) else .ok ()
    delete := fun k =>
      if k = gs "s2" then .error (.other (gs "boom")) else .ok () }

/-- Witness for the amended C4 at concrete paths. -/
theorem C4_move_rollback_witness :
    moveA c4B (gs "bkt") (gs "h") [] (gs "/s1") (gs "/d1") =
      (some (parseErrorA (gs "/s1") (.other (gs "copy failed"))),
       [.copy (cosPathA [] (gs "/d1"))
         (gs "bkt" ++ gs ".cos." ++ gs "h" ++ gs ".myqcloud.com/"
           ++ cosPathA [] (gs "/s1"))]) ∧
    moveA c4B (gs "bkt") (gs "h") [] (gs "/s2") (gs "/d2") =
      (some (parseErrorA (gs "/s2") (.other (gs "boom"))),
       [.copy (cosPathA [] (gs "/d2"))
         (gs "bkt" ++ gs ".cos." ++ gs "h" ++ gs ".myqcloud.com/"
           ++ cosPathA [] (gs "/s2")),
        .delete (cosPathA [] (gs "/s2")), .delete (cosPathA [] (gs "/d2"))]) ∧
    moveB c4B (gs "bkt") [] (gs "/s1") (gs "/d1") =
      (some (parseErrorB (gs "/s1") (.other (gs "copy failed"))),
       [.copy (cosPathB [] (gs "/d1")) (gs "bkt" ++ gs "/" ++ cosPathB [] (gs "/s1"))]) ∧
    moveB c4B (gs "bkt") [] (gs "/s2") (gs "/d2") =
      (some (parseErrorB (gs "/s2") (.other (gs "boom"))),
       [.copy (cosPathB [] (gs "/d2")) (gs "bkt" ++ gs "/" ++ cosPathB [] (gs "/s2")),
        .delete (cosPathB [] (gs "/s2"))]) :=
  C4_move_rollback c4B (gs "bkt") (gs "h") [] (gs "/s1") (gs "/d1")
    (gs "/s2") (gs "/d2") (.other (gs "copy failed")) (.other (gs "boom"))
    rfl rfl rfl rfl rfl rfl

/-- Counterexample to C4 as stated: in the variant implementation, after
a successful copy and a failed source delete, `Move` returns the
translated deletion failure having issued exactly two backend calls —
the copy and the failed source delete — with NO rollback delete of the
newly created destination object. -/
theorem C4_move_rollback_counterexample :
    moveB deleteFailB (gs "bkt") [] (gs "/s") (gs "/d") =
      (some (.wrapped (.other (gs "delete failed"))),
       [.copy (gs "d") (gs "bkt/s"), .delete (gs "s")]) := rfl

/-! ## C6: Stat -/

/-- C6 (amended): both variants first head the exact key and, on
success, return a file entry (IsDir = false) carrying the size and
modification time reported by the backend; on a head failure both issue
exactly one listing call with prefix `toKey(path) ++ "/"` and max-keys
1 — but cos.go sets delimiter `"/"` and reports a synthetic directory
when the listing has any content OR common prefix (otherwise returning
the translated original head error, which is NotFound for a NoSuchKey
head error), while the variant implementation issues the listing with
NO delimiter, consults only the contents, and otherwise returns
NotFound directly.  `pf` carries an object; `pm` does not. -/
theorem C6_stat_behavior (b : Backend) (root pf pm : GoStr) (sz : Nat)
    (mt : GoStr) (e : BackendErr) (r rB : ListResult)
    (hfA : b.head (cosPathA root pf) = .ok (sz, mt))
    (hfB : b.head (cosPathB root pf) = .ok (sz, mt))
    (hmA : b.head (cosPathA root pm) = .error e)
    (hmB : b.head (cosPathB root pm) = .error e)
    (hlA : b.bucketGet { pfx := cosPathA root pm ++ gs "/", delimiter := gs "/"
                         maxKeys := 1, marker := [] } = .ok r)
    (hlB : b.bucketGet { pfx := cosPathB root pm ++ gs "/", delimiter := []
                         maxKeys := 1, marker := [] } = .ok rB) :
    statA b root pf = (.ok { path := pf, size := sz, modTime := mt, isDir := false },
      [.head (cosPathA root pf)]) ∧
    statA b root pm =
      ((if r.contents.length > 0 ∨ r.commonPrefixes.length > 0 then
          .ok { path := pm, size := 0, modTime := [], isDir := true }
        else .error (parseErrorA pm e)),
       [.head (cosPathA root pm),
        .bucketGet { pfx := cosPathA root pm ++ gs "/", delimiter := gs "/"
                     maxKeys := 1, marker := [] }]) ∧
    statB b root pf = (.ok { path := pf, size := sz, modTime := mt, isDir := false },
      [.head (cosPathB root pf)]) ∧
    statB b root pm =
      ((if rB.contents.length > 0 then
          .ok { path := pm, size := 0, modTime := b.now, isDir := true }
        else .error (.pathNotFound pm)),
       [.head (cosPathB root pm),
        .bucketGet { pfx := cosPathB root pm ++ gs "/", delimiter := []
                     maxKeys := 1, marker := [] }]) := by
  refine ⟨?_, ?_, ?_, ?_⟩
  · simp only [statA]
    rw [hfA]
  · simp only [statA]
    rw [hmA, hlA]
    by_cases hcond : r.contents.length > 0 ∨ r.commonPrefixes.length > 0
    · simp [hcond]
    · simp [hcond]
  · simp only [statB]
    rw [hfB]
  · simp only [statB]
    rw [hmB, hlB]
    by_cases hcond : rB.contents.length > 0
    · simp [hcond]
    · simp [hcond]

/-- Keyed backend for the C6 witness: a 5-byte object at key `f`,
nothing elsewhere, empty listings. -/
def c6B : Backend :=
  { okB with head := fun k =>
      if k = gs "f" then .ok (5, gs "mt")
      else .error (.errorResponse (gs "NoSuchKey") []) }

/-- Witness for the amended C6 at concrete paths. -/
theorem C6_stat_behavior_witness :
    statA c6B [] (gs "/f") =
      (.ok { path := gs "/f", size := 5, modTime := gs "mt", isDir := false },
       [.head (cosPathA [] (gs "/f"))]) ∧
    statA c6B [] (gs "/m") =
      ((if ([] : List ObjEntry).length > 0 ∨ ([] : List GoStr).length > 0 then
          .ok { path := gs "/m", size := 0, modTime := [], isDir := true }
        else .error (parseErrorA (gs "/m") (.errorResponse (gs "NoSuchKey") []))),
       [.head (cosPathA [] (gs "/m")),
        .bucketGet { pfx := cosPathA [] (gs "/m") ++ gs "/", delimiter := gs "/"
                     maxKeys := 1, marker := [] }]) ∧
    statB c6B [] (gs "/f") =
      (.ok { path := gs "/f", size := 5, modTime := gs "mt", isDir := false },
       [.head (cosPathB [] (gs "/f"))]) ∧
    statB c6B [] (gs "/m") =
      ((if ([] : List ObjEntry).length > 0 then
          .ok { path := gs "/m", size := 0, modTime := c6B.now, isDir := true }
        else .error (.pathNotFound (gs "/m"))),
       [.head (cosPathB [] (gs "/m")),
        .bucketGet { pfx := cosPathB [] (gs "/m") ++ gs "/", delimiter := []
                     maxKeys := 1, marker := [] }]) :=
  C6_stat_behavior c6B [] (gs "/f") (gs "/m") 5 (gs "mt")
    (.errorResponse (gs "NoSuchKey") [])
    { contents := [], commonPrefixes := [], isTruncated := false, nextMarker := [] }
    { contents := [], commonPrefixes := [], isTruncated := false, nextMarker := [] }
    rfl rfl rfl rfl rfl rfl

/-- Counterexample to C6 as stated: for a path with no object, the
variant implementation issues its single listing call with an EMPTY
delimiter, not the claimed delimiter `"/"` (and consults only the
contents, never the common prefixes). -/
theorem C6_stat_counterexample :
    (statB okB [] (gs "/a")).2 =
      [.head (gs "a"),
       .bucketGet { pfx := gs "a/", delimiter := [], maxKeys := 1, marker := [] }] ∧
    ([] : GoStr) ≠ gs "/" := ⟨rfl, by decide⟩

/-! ## C8, C9, C10: writer lifecycle -/

theorem commitA_ok_state (b : Backend) (w : WriterA)
    (h : (commitA b w).1 = none) :
    ((commitA b w).2.1).closed = true ∧ ((commitA b w).2.1).committed = true := by
  unfold commitA at h ⊢
  by_cases g1 : w.closed = true ∧ ¬w.committed = true ∧ ¬w.cancelled = true
  · rw [if_pos g1] at h
    exact absurd h (by simp)
  · rw [if_neg g1] at h ⊢
    by_cases g2 : w.committed = true
    · rw [if_pos g2] at h
      exact absurd h (by simp)
    · rw [if_neg g2] at h ⊢
      by_cases g3 : w.cancelled = true
      · rw [if_pos g3] at h
        exact absurd h (by simp)
      · rw [if_neg g3] at h ⊢
        rcases hup : uploadPartA b w with ⟨res, w', t⟩
        rw [hup] at h
        cases res with
        | error e => simp at h
        | ok u =>
          cases hc : b.completeMultipartUpload w.key w.uploadID w'.parts with
          | error e => simp [hc] at h
          | ok u2 => simp [hc]

/-- C8 (amended): in cos.go, `Write` on a closed writer fails with
"already closed", accepts no bytes, and issues no backend call; and
both a successfully completed `Commit` and a `Cancel` on a not-yet
closed writer leave the writer closed (with the corresponding flag
set), so a writer that has reached Committed or Cancelled there rejects
every subsequent Write as claimed.  In the variant implementation
`Write` checks only the `closed` flag, which neither `Commit` nor
`Cancel` ever sets: a Write after Commit (or Cancel) still succeeds and
buffers the bytes, though it issues no backend call. -/
theorem C8_write_after_terminal (b : Backend) (cs n : Nat)
    (wA wc wx : WriterA) (wB : WriterB)
    (hA : wA.closed = true)
    (hcm : (commitA b wc).1 = none)
    (hx : wx.closed = false)
    (hBcl : wB.closed = false) (_hBco : wB.committed = true) :
    writeA b cs wA n = ((0, some (.errorf (gs "already closed"))), wA, []) ∧
    ((commitA b wc).2.1).closed = true ∧ ((commitA b wc).2.1).committed = true ∧
    ((cancelA b wx).2.1).closed = true ∧ ((cancelA b wx).2.1).cancelled = true ∧
    writeB wB n = ((n, none), { wB with buf := wB.buf + n }, []) := by
  refine ⟨?_, (commitA_ok_state b wc hcm).1, (commitA_ok_state b wc hcm).2,
    ?_, ?_, ?_⟩
  · simp [writeA, hA]
  · cases hab : b.abortMultipartUpload wx.key wx.uploadID <;>
      simp [cancelA, hx, hab]
  · cases hab : b.abortMultipartUpload wx.key wx.uploadID <;>
      simp [cancelA, hx, hab]
  · simp [writeB, hBcl]

/-- Witness for the amended C8 at concrete writers over `okB`. -/
theorem C8_write_after_terminal_witness :
    writeA okB 5242880 { newWriterA (gs "k") (gs "u") [] with closed := true } 3 =
      ((0, some (.errorf (gs "already closed"))),
       { newWriterA (gs "k") (gs "u") [] with closed := true }, []) ∧
    ((commitA okB (newWriterA (gs "k") (gs "u") [])).2.1).closed = true ∧
    ((commitA okB (newWriterA (gs "k") (gs "u") [])).2.1).committed = true ∧
    ((cancelA okB (newWriterA (gs "k2") (gs "u2") [])).2.1).closed = true ∧
    ((cancelA okB (newWriterA (gs "k2") (gs "u2") [])).2.1).cancelled = true ∧
    writeB { newWriterB (gs "k3") [] with committed := true } 3 =
      ((3, none),
       { newWriterB (gs "k3") [] with committed := true, buf := 0 + 3 }, []) :=
  C8_write_after_terminal okB 5242880 3
    { newWriterA (gs "k") (gs "u") [] with closed := true }
    (newWriterA (gs "k") (gs "u") [])
    (newWriterA (gs "k2") (gs "u2") [])
    { newWriterB (gs "k3") [] with committed := true }
    rfl rfl rfl rfl rfl

/-- Counterexample to C8 as stated: in the variant implementation a
writer that has just completed `Commit` (committed flag set) still
ACCEPTS a subsequent Write — the call returns 3 accepted bytes and no
error and grows the buffer — instead of failing with an
already-closed condition. -/
theorem C8_write_after_terminal_counterexample :
    ((commitB okB 5242880 (newWriterB (gs "k") [])).2.1).committed = true ∧
    (writeB ((commitB okB 5242880 (newWriterB (gs "k") [])).2.1) 3).1 =
      (3, none) ∧
    (writeB ((commitB okB 5242880 (newWriterB (gs "k") [])).2.1) 3).2.1.buf = 3 :=
  ⟨rfl, rfl, rfl⟩

/-- C9 (amended): in cos.go a `Commit` on a committed writer fails with
"already committed" and on a cancelled writer with "already cancelled"
(no backend call, no state change) — Commit is not idempotent there.
In the variant implementation Commit on a cancelled writer fails, but
Commit on a committed writer returns SUCCESS as a no-op (no backend
call): a second Commit does not fail. -/
theorem C9_commit_after_terminal (b : Backend) (cs : Nat)
    (w1 w2 : WriterA) (v1 v2 : WriterB)
    (h1 : w1.committed = true)
    (h2co : w2.committed = false) (h2ca : w2.cancelled = true)
    (hv1 : v1.committed = true)
    (hv2co : v2.committed = false) (hv2ca : v2.cancelled = true) :
    commitA b w1 = (some (.errorf (gs "already committed")), w1, []) ∧
    commitA b w2 = (some (.errorf (gs "already cancelled")), w2, []) ∧
    commitB b cs v1 = (none, v1, []) ∧
    commitB b cs v2 = (some (.errorf (gs "writer cancelled")), v2, []) := by
  refine ⟨?_, ?_, ?_, ?_⟩
  · simp [commitA, h1]
  · simp [commitA, h2co, h2ca]
  · simp [commitB, hv1]
  · simp [commitB, hv2co, hv2ca]

/-- Witness for the amended C9 at concrete writers. -/
theorem C9_commit_after_terminal_witness :
    commitA okB { newWriterA (gs "k") (gs "u") [] with committed := true } =
      (some (.errorf (gs "already committed")),
       { newWriterA (gs "k") (gs "u") [] with committed := true }, []) ∧
    commitA okB { newWriterA (gs "k") (gs "u") [] with cancelled := true } =
      (some (.errorf (gs "already cancelled")),
       { newWriterA (gs "k") (gs "u") [] with cancelled := true }, []) ∧
    commitB okB 5242880 { newWriterB (gs "k2") [] with committed := true } =
      (none, { newWriterB (gs "k2") [] with committed := true }, []) ∧
    commitB okB 5242880 { newWriterB (gs "k2") [] with cancelled := true } =
      (some (.errorf (gs "writer cancelled")),
       { newWriterB (gs "k2") [] with cancelled := true }, []) :=
  C9_commit_after_terminal okB 5242880
    { newWriterA (gs "k") (gs "u") [] with committed := true }
    { newWriterA (gs "k") (gs "u") [] with cancelled := true }
    { newWriterB (gs "k2") [] with committed := true }
    { newWriterB (gs "k2") [] with cancelled := true }
    rfl rfl rfl rfl rfl rfl

/-- Counterexample to C9 as stated: in the variant implementation,
after a Commit has run to completion on a fresh writer, a SECOND Commit
succeeds (returns no error) as a no-op with no backend call, where the
claim demands that it fail. -/
theorem C9_commit_after_terminal_counterexample :
    (commitB okB 5242880
      ((commitB okB 5242880 (newWriterB (gs "k") [])).2.1)).1 = none ∧
    (commitB okB 5242880
      ((commitB okB 5242880 (newWriterB (gs "k") [])).2.1)).2.2 = [] :=
  ⟨rfl, rfl⟩

/-- C10 (amended): in cos.go a backend failure during Commit (the final
part upload or the completion call) makes Commit return that error with
the `committed` flag still false and the writer not closed, so a
subsequent Commit is never rejected as "already committed" (it reaches
the backend again) — though on a final-part upload failure the failed
bytes have been drained from the buffer.  In the variant implementation
`committed` is set BEFORE any backend call, so a failed Commit still
transitions the writer to Committed. -/
theorem C10_commit_failure_state (b : Backend) (cs : Nat)
    (w0 w1 w2 : WriterA) (vb : WriterB) (e0 e1 : BackendErr)
    (h0cl : w0.closed = false) (h0ca : w0.cancelled = false)
    (h0co : w0.committed = false) (h0buf : w0.buf = 0)
    (h0c : b.completeMultipartUpload w0.key w0.uploadID w0.parts = .error e0)
    (h1cl : w1.closed = false) (h1ca : w1.cancelled = false)
    (h1co : w1.committed = false) (h1buf : 0 < w1.buf)
    (h1u : b.uploadPart w1.key w1.uploadID (w1.parts.length + 1) w1.buf
      = .error e1)
    (h2cl : w2.closed = false) (h2ca : w2.cancelled = false)
    (h2co : w2.committed = false)
    (hvco : vb.committed = false) (hvca : vb.cancelled = false) :
    commitA b w0 =
      (some (.backend e0), w0, [.complete w0.key w0.uploadID w0.parts]) ∧
    commitA b w1 = (some (.backend e1), { w1 with buf := 0 },
      [.uploadPart w1.key w1.uploadID (w1.parts.length + 1) w1.buf]) ∧
    (commitA b w2).1 ≠ some (.errorf (gs "already committed")) ∧
    ((commitB b cs vb).2.1).committed = true := by
  refine ⟨?_, ?_, ?_, ?_⟩
  · simp [commitA, uploadPartA, h0cl, h0ca, h0co, h0buf, h0c]
  · have hne : ¬(w1.buf = 0) := by omega
    simp [commitA, uploadPartA, h1cl, h1ca, h1co, hne, h1u]
  · have g1 : ¬(w2.closed = true ∧ ¬w2.committed = true ∧ ¬w2.cancelled = true) := by
      simp [h2cl]
    rw [commitA, if_neg g1, if_neg (show ¬w2.committed = true by simp [h2co]),
      if_neg (show ¬w2.cancelled = true by simp [h2ca])]
    rcases hup : uploadPartA b w2 with ⟨res, w', t⟩
    cases res with
    | error e => simp
    | ok u =>
      cases hc : b.completeMultipartUpload w2.key w2.uploadID w'.parts with
      | error e => simp [hc]
      | ok u2 => simp [hc]
  · have g1 : ¬vb.committed = true := by simp [hvco]
    have g2 : ¬vb.cancelled = true := by simp [hvca]
    simp only [commitB, if_neg g1, if_neg g2]
    repeat' split
    all_goals rfl

/-- Keyed backend for the C10 witness: completion fails at key `k0`,
part upload fails at key `k1`, everything else succeeds. -/
def c10B : Backend :=
  { okB with
    completeMultipartUpload := fun k _ _ =>
      if k = gs "k0" then .error (.other (gs "complete failed")) else .ok ()
    uploadPart := fun k _ _ _ =>
      if k = gs "k1" then .error (.other (gs "upload failed"))
      else .ok (gs "etag") }

/-- Witness for the amended C10 at concrete writers. -/
theorem C10_commit_failure_state_witness :
    commitA c10B (newWriterA (gs "k0") (gs "u0") []) =
      (some (.backend (.other (gs "complete failed"))),
       newWriterA (gs "k0") (gs "u0") [], [.complete (gs "k0") (gs "u0") []]) ∧
    commitA c10B
        { key := gs "k1", uploadID := gs "u1", parts := [], size := 3, buf := 3,
          closed := false, committed := false, cancelled := false } =
      (some (.backend (.other (gs "upload failed"))),
       { key := gs "k1", uploadID := gs "u1", parts := [], size := 3, buf := 0,
         closed := false, committed := false, cancelled := false },
       [.uploadPart (gs "k1") (gs "u1") 1 3]) ∧
    (commitA c10B (newWriterA (gs "k2") (gs "u2") [])).1 ≠
      some (.errorf (gs "already committed")) ∧
    ((commitB c10B 5242880 (newWriterB (gs "k3") [])).2.1).committed = true :=
  C10_commit_failure_state c10B 5242880 (newWriterA (gs "k0") (gs "u0") [])
    { key := gs "k1", uploadID := gs "u1", parts := [], size := 3, buf := 3,
      closed := false, committed := false, cancelled := false }
    (newWriterA (gs "k2") (gs "u2") []) (newWriterB (gs "k3") [])
    (.other (gs "complete failed")) (.other (gs "upload failed"))
    rfl rfl rfl rfl rfl rfl rfl rfl (by norm_num) rfl rfl rfl rfl rfl rfl

/-- Counterexample to C10 as stated: in the variant implementation a
Commit whose whole-object put fails returns the error, yet the writer
HAS transitioned to Committed (committed flag true), and a subsequent
Commit returns success immediately with no backend call instead of
retrying. -/
theorem C10_commit_failure_state_counterexample :
    (commitB putFailB 5242880 (newWriterB (gs "k") [])).1 =
      some (.backend (.other (gs "put failed"))) ∧
    ((commitB putFailB 5242880 (newWriterB (gs "k") [])).2.1).committed = true ∧
    (commitB putFailB 5242880
      ((commitB putFailB 5242880 (newWriterB (gs "k") [])).2.1)).1 = none ∧
    (commitB putFailB 5242880
      ((commitB putFailB 5242880 (newWriterB (gs "k") [])).2.1)).2.2 = [] :=
  ⟨rfl, rfl, rfl, rfl⟩

end CosDriver
